import Mathlib

/-!
Verification of the StoryWeaver AI Academy orchestration core.

The definitions below are a shallow embedding of the TypeScript source in
`src/components/StoryInterface.tsx` (which contains both the React component
and the gemini service helpers).  Asynchronous service calls are modelled by
passing their outcome explicitly (`Except Unit (Option String)`: `.error` for
a thrown rejection, `.ok none` for an empty/absent payload).  React state
updates inside one synchronous block of a handler are modelled as a pure
state-transition function.
-/

namespace StoryWeaver

/-- Media kind tag of a scene, `mediaType: 'image' | 'video'` in the source. -/
inductive MediaType where
  | image
  | video
  deriving DecidableEq, Repr

/-- UI language, the `Language` enum of `src/types.ts`. -/
inductive Language where
  | english
  | hindi
  | spanish
  deriving DecidableEq, Repr

/-- One option of a quiz question (`QuizOption` in `src/types.ts`). -/
structure QuizOption where
  text : String
  isCorrect : Bool
  deriving DecidableEq, Repr

/-- A quiz item (`Quiz` in `src/types.ts`). -/
structure Quiz where
  question : String
  options : List QuizOption
  feedback : String
  deriving DecidableEq, Repr

/-- Modelled from the spec (§3 Scene) and the source's usage: the `StoryScene`
type imported by `StoryInterface.tsx` is not declared under `src/`, but every
field is determined by its uses (`scene.id`, `scene.text`, `scene.imagePrompt`,
`scene.mediaType`, `scene.mediaUrl`). -/
structure StoryScene where
  id : String
  text : String
  imagePrompt : String
  mediaType : MediaType
  mediaUrl : Option String
  deriving DecidableEq, Repr

/-- Modelled from the spec (§3 Story) and the source's usage: the `FullStory`
type imported by `StoryInterface.tsx` is not declared under `src/`, but every
field is determined by its uses in `generateFullStory` and the component. -/
structure FullStory where
  id : String
  title : String
  scenes : List StoryScene
  quiz : List Quiz
  notes : List String
  timestamp : Nat
  language : Language
  deriving DecidableEq, Repr

/-- Session progress counters (`UserProgress` in `src/types.ts`). -/
structure UserProgress where
  badges : List String
  storiesCompleted : Nat
  quizzesPassed : Nat
  totalPoints : Nat
  literacyScore : List Nat
  engagementScore : List Nat
  deriving DecidableEq, Repr

/-- Result of an affect classification (`EmotionAnalysisResult` in
`src/types.ts`).  The emotion is kept as a raw string because the source
coerces the classifier's string straight into the field
(`(data.emotion as Emotion) || Emotion.NEUTRAL`). -/
structure EmotionAnalysisResult where
  emotion : String
  confidence : ℚ
  needsSimplification : Bool
  deriving DecidableEq, Repr

/-! ## C1 — simplification trigger (`handleSimplification`, StoryInterface.tsx lines 47-66) -/

/-- The component state read by the simplification effect:
the `simplifying` flag, whether a story is loaded (`story` non-null), the
`isQuizMode` derived flag, and the current scene's text
(`story.scenes[currentSceneIndex].text`). -/
structure SimplState where
  simplifying : Bool
  storyPresent : Bool
  isQuizMode : Bool
  sceneText : String
  deriving DecidableEq, Repr

/-- The synchronous part of `handleSimplification`, run on each incoming
emotion sample, up to the suspension point of `await simplifyContent`.
Source guard: `if (emotionState.needsSimplification && story && !isQuizMode
&& !simplifying)`; it then sets `simplifying` to `true` and only issues the
request when `scene.text.length > 50` — for a shorter scene the handler runs
to its end synchronously and resets `simplifying` to `false`, so the net
state is unchanged and no request is issued.  The returned `Bool` records
whether a `simplifyContent` request was issued. -/
def handleSimplificationIssue (needsSimplification : Bool) (st : SimplState) :
    SimplState × Bool :=
  if needsSimplification && st.storyPresent && !st.isQuizMode && !st.simplifying then
    if 50 < st.sceneText.length then
      ({ st with simplifying := true }, true)
    else
      (st, false)
  else
    (st, false)

/-- Completion of an in-flight simplification: the resolved text replaces the
current scene's text and `simplifying` is reset (lines 54-62). -/
def handleSimplificationComplete (simplifiedText : String) (st : SimplState) :
    SimplState :=
  { st with sceneText := simplifiedText, simplifying := false }

/-! ## C10 — `simplifyContent` (lines 655-666) -/

/-- `simplifyContent`: the model call's outcome is passed explicitly
(`.error ()` = the call threw, `.ok none` = `response.text` absent,
`.ok (some s)` = `response.text = s`).  Source: `return response.text || text`
inside `try`, `return text` in `catch` — an empty string is falsy in JS and
also yields the original text.  The language only feeds the prompt. -/
def simplifyContent (text : String) (_language : Language)
    (outcome : Except Unit (Option String)) : String :=
  match outcome with
  | .error _ => text
  | .ok none => text
  | .ok (some s) => if s = "" then text else s

/-! ## C8 — `analyzeLearnerEmotion` (lines 761-784) -/

/-- The structured classification response parsed from the model's JSON:
`data.emotion` and `data.confidence`, either of which may be absent. -/
structure EmotionData where
  emotion : Option String
  confidence : Option ℚ
  deriving DecidableEq, Repr

/-- The fixed confidence threshold `0.6` in
`data.emotion === 'CONFUSED' && (data.confidence || 0) > 0.6`. -/
def simplificationThreshold : ℚ := 3 / 5

/-- `analyzeLearnerEmotion`: `resp = none` models the whole call throwing (or
`parseJSON` returning null, which makes the field access throw) — the catch
returns the neutral sample.  Otherwise the sample is built exactly as in the
source: `emotion: (data.emotion as Emotion) || Emotion.NEUTRAL`,
`confidence: data.confidence || 0`,
`needsSimplification: data.emotion === 'CONFUSED' && (data.confidence || 0) > 0.6`.
For a number, the JS `|| 0` default maps an absent value (and `0` itself)
to `0`, which coincides with `Option.getD 0`. -/
def analyzeLearnerEmotion (resp : Option EmotionData) : EmotionAnalysisResult :=
  match resp with
  | none => { emotion := "NEUTRAL", confidence := 0, needsSimplification := false }
  | some d =>
    { emotion := match d.emotion with
        | none => "NEUTRAL"
        | some e => if e = "" then "NEUTRAL" else e
      confidence := d.confidence.getD 0
      needsSimplification :=
        decide (d.emotion = some "CONFUSED")
          && decide (simplificationThreshold < d.confidence.getD 0) }

/-! ## C6 — quiz answer submission (`handleQuizAnswer`, lines 210-224, and
`updateStats`, App.tsx lines 73-80) -/

/-- `updateStats` from `src/App.tsx`:
`newPoints = correct ? 50 : 10`, `quizzesPassed` incremented only when
correct, `totalPoints` incremented by `newPoints`. -/
def updateStats (correct : Bool) (p : UserProgress) : UserProgress :=
  { p with
    quizzesPassed := if correct then p.quizzesPassed + 1 else p.quizzesPassed
    totalPoints := p.totalPoints + (if correct then 50 else 10) }

/-- The quiz-relevant component state: the `quizState` record
(`{ [key: number]: boolean | null }`, modelled as an association list with
the most recent write at the front) together with the session progress that
`onUpdateStats` mutates. -/
structure QuizSession where
  quizState : List (Nat × Bool)
  progress : UserProgress
  deriving DecidableEq, Repr

/-- Lookup in the `quizState` record: `quizState[idx]`, `none` meaning
`undefined` (unanswered). -/
def quizLookup (st : List (Nat × Bool)) (q : Nat) : Option Bool :=
  (st.find? (fun p => p.1 == q)).map (fun p => p.2)

/-- One quiz answer submission.  A submission reaches `handleQuizAnswer` only
through an option button, which carries `disabled={quizState[idx] !==
undefined}` (line 309) — so an already-answered item ignores the click.
Otherwise `handleQuizAnswer` records the answer in `quizState` and calls
`onUpdateStats(isCorrect)` (the sound and confetti effects have no bearing on
session progress). -/
def submitQuizAnswer (qIndex : Nat) (isCorrect : Bool) (s : QuizSession) :
    QuizSession :=
  if (quizLookup s.quizState qIndex).isSome then
    s
  else
    { quizState := (qIndex, isCorrect) :: s.quizState
      progress := updateStats isCorrect s.progress }

/-! ## C2 — media-generation effect (StoryInterface.tsx lines 69-90) -/

/-- The state read and written by the media-generation effect: the
`mediaCache` record (scene id to resolved URL, most recent write first) and a
ghost list recording the scene ids of acquisitions currently in flight (a
`generateVisuals` promise issued but not yet settled); the source itself
keeps no such record. -/
structure MediaEffectState where
  mediaCache : List (String × String)
  pending : List String
  deriving DecidableEq, Repr

/-- Lookup `mediaCache[sceneId]` (`none` = `undefined`). -/
def cacheGet (c : List (String × String)) (k : String) : Option String :=
  (c.find? (fun p => p.1 == k)).map (fun p => p.2)

/-- JS truthiness of the optional `scene.mediaUrl` (absent or empty string is
falsy). -/
def mediaTruthy (o : Option String) : Bool :=
  match o with
  | some s => s ≠ ""
  | none => false

/-- One invocation of the media-generation effect for the current scene.
Source: if a story is shown (`story && !isQuizMode`): when
`scene.mediaUrl && !mediaCache[scene.id]` the stored URL is copied into the
cache and the effect returns; otherwise, when `!mediaCache[scene.id] &&
!isOffline`, a fresh `generateVisuals` request is issued (recorded in the
ghost `pending` list; the returned `Bool` reports that a request was
issued). -/
def mediaEffect (storyPresent isQuizMode isOffline : Bool) (scene : StoryScene)
    (st : MediaEffectState) : MediaEffectState × Bool :=
  if storyPresent && !isQuizMode then
    if mediaTruthy scene.mediaUrl && (cacheGet st.mediaCache scene.id).isNone then
      ({ st with mediaCache := (scene.id, scene.mediaUrl.getD "") :: st.mediaCache }, false)
    else if (cacheGet st.mediaCache scene.id).isNone && !isOffline then
      ({ st with pending := scene.id :: st.pending }, true)
    else
      (st, false)
  else
    (st, false)

/-- Settlement of an in-flight `generateVisuals` promise for a scene: the
continuation `then(url => { if (url) { setMediaCache(...); ... } })`
(lines 81-87) writes a cache entry only for a truthy result. -/
def mediaComplete (sceneId : String) (url : Option String)
    (st : MediaEffectState) : MediaEffectState :=
  let st' := { st with pending := st.pending.erase sceneId }
  if mediaTruthy url then
    { st' with mediaCache := (sceneId, url.getD "") :: st'.mediaCache }
  else
    st'

/-- A concrete scene with no stored media, used to exercise the media
effect. -/
def sceneS1 : StoryScene :=
  { id := "s1", text := "scene text", imagePrompt := "a prompt"
    mediaType := .image, mediaUrl := none }

/-! ## C3 — `generateVisuals` fallback chain (lines 673-756) -/

/-- The inner `generateFlashImage` helper: it catches its own errors and
returns `undefined` both on a throw and when the response has no
`inlineData` part. -/
def generateFlashImage (flash : Except Unit (Option String)) : Option String :=
  match flash with
  | .ok u => u
  | .error _ => none

/-- `generateVisuals`, with the three service calls' outcomes passed
explicitly (video = the whole Veo poll-fetch-convert phase, yielding the
encoded payload; pro = the Gemini 3 Pro image call, yielding the extracted
inline image if any; flash = the flash-image fallback call).  Source shape:
for a video request, a successful Veo result with a download link returns the
converted payload; a throw or a missing link falls through to the Pro image
attempt; a Pro throw falls to `generateFlashImage()` (as does a Pro response
without an inline image); all failures yield `undefined`. -/
def generateVisuals (ty : MediaType)
    (video pro flash : Except Unit (Option String)) : Option String :=
  let fromPro : Option String :=
    match pro with
    | .ok (some u) => some u
    | .ok none => generateFlashImage flash
    | .error _ => generateFlashImage flash
  match ty with
  | .image => fromPro
  | .video =>
    match video with
    | .ok (some payload) => some payload
    | .ok none => fromPro
    | .error _ => fromPro

/-! ## C5 — `updateStorySceneMedia` (lines 531-549) -/

/-- The inner scene patch: `scenes.findIndex(s => s.id === sceneId)` followed
by an in-place `mediaUrl` assignment on the found index, phrased as a
first-match recursion.  The `Bool` records whether a matching scene was
found (and hence whether `localStorage.setItem` runs). -/
def patchScenes (sceneId url : String) : List StoryScene → List StoryScene × Bool
  | [] => ([], false)
  | sc :: rest =>
    if sc.id = sceneId then
      ({ sc with mediaUrl := some url } :: rest, true)
    else
      let r := patchScenes sceneId url rest
      (sc :: r.1, r.2)

/-- The outer story search: `stories.findIndex(s => s.id === storyId)`; when
found, only that story's scenes are searched — a missing scene inside the
found story ends the operation without touching any later story. -/
def patchStories (storyId sceneId url : String) : List FullStory → List FullStory × Bool
  | [] => ([], false)
  | st :: rest =>
    if st.id = storyId then
      let r := patchScenes sceneId url st.scenes
      ({ st with scenes := r.1 } :: rest, r.2)
    else
      let r := patchStories storyId sceneId url rest
      (st :: r.1, r.2)

/-- `updateStorySceneMedia`: `saved = none` models an absent storage key
(`if (!saved) return`).  The first component is the stored story list after
the call (unchanged when nothing is written), the second records whether
`setItem` persisted an update.  A parse or storage failure is caught and
ignored (`catch` logs and continues), so the function is total. -/
def updateStorySceneMedia (storyId sceneId url : String)
    (saved : Option (List FullStory)) : Option (List FullStory) × Bool :=
  match saved with
  | none => (none, false)
  | some stories =>
    let r := patchStories storyId sceneId url stories
    (some r.1, r.2)

/-! ## C7 — `parseJSON` (lines 467-486) -/

/-- The backtick character, written by code point to keep the source plain. -/
def btick : Char := Char.ofNat 96

/-- The opening-brace character `Char.ofNat 123`. -/
def braceOpen : Char := Char.ofNat 123

/-- The closing-brace character `Char.ofNat 125`. -/
def braceClose : Char := Char.ofNat 125

/-- The fence marker with trailing newline, first alternative of the regex
with its optional `\n` present. -/
def fenceJsonNl : List Char := [btick, btick, btick, 'j', 's', 'o', 'n', '\n']

/-- The fence marker without trailing newline. -/
def fenceJson : List Char := [btick, btick, btick, 'j', 's', 'o', 'n']

/-- The closing fence preceded by its optional `\n`. -/
def fenceNl : List Char := ['\n', btick, btick, btick]

/-- The bare three-backtick fence. -/
def fenceBare : List Char := [btick, btick, btick]

/-- The global regex replace `text.replace(/((three backticks)json\n?|\n?(three
backticks))/g, "")`: scan left to right; at each position try, in the regex's
alternation order, the json fence with then without its optional newline,
then the closing fence with then without its optional leading newline;
on a match drop it and continue after it, otherwise keep the character.
The fuel argument (initialised to the text length, an upper bound on the
number of steps) keeps the recursion structural. -/
def stripFencesAux : Nat → List Char → List Char
  | 0, l => l
  | fuel + 1, l =>
    if fenceJsonNl.isPrefixOf l then stripFencesAux fuel (l.drop 8)
    else if fenceJson.isPrefixOf l then stripFencesAux fuel (l.drop 7)
    else if fenceNl.isPrefixOf l then stripFencesAux fuel (l.drop 4)
    else if fenceBare.isPrefixOf l then stripFencesAux fuel (l.drop 3)
    else
      match l with
      | [] => []
      | c :: cs => c :: stripFencesAux fuel cs

/-- JS `String.prototype.trim`: drop whitespace from both ends. -/
def trimChars (l : List Char) : List Char :=
  ((l.dropWhile Char.isWhitespace).reverse.dropWhile Char.isWhitespace).reverse

/-- The `cleanText` of the first parse attempt:
`text.replace(...fences..., "").trim()`. -/
def cleanFences (s : String) : String :=
  String.mk (trimChars (stripFencesAux s.toList.length s.toList))

/-- JS `text.substring(a, b)`: the arguments are swapped when `a > b`. -/
def jsSubstring (l : List Char) (a b : Nat) : List Char :=
  (l.take (max a b)).drop (min a b)

/-- The recovery slice of the fallback parse attempt:
`text.substring(text.indexOf(brace), text.lastIndexOf(brace) + 1)`, available
only when both `indexOf` results differ from `-1`. -/
def braceSlice (s : String) : Option String :=
  let l := s.toList
  let first := l.findIdx? (fun c => c = braceOpen)
  let last :=
    match l.reverse.findIdx? (fun c => c = braceClose) with
    | some k => some (l.length - 1 - k)
    | none => none
  match first, last with
  | some i, some j => some (String.mk (jsSubstring l i (j + 1)))
  | _, _ => none

/-- `parseJSON`, parametric in the JSON parser: `parse s = none` models
`JSON.parse(s)` throwing.  First attempt: parse the fence-stripped, trimmed
text; on failure, one recovery pass parses the first-brace-to-last-brace
slice of the *original* text when both braces exist; if the recovery parse
throws, or a brace is missing, the result is `null` — the function never
throws. -/
def parseJSON {α : Type} (parse : String → Option α) (text : String) : Option α :=
  match parse (cleanFences text) with
  | some v => some v
  | none =>
    match braceSlice text with
    | some sub => parse sub
    | none => none

/-! ## C9 — `generateFullStory` (lines 619-650) and `generateUUID`
(lines 462-465) -/

/-- One scene entry of the parsed generation response
(`{ "text": ..., "imagePrompt": ..., "mediaType": ... }`). -/
structure SceneData where
  text : String
  imagePrompt : String
  mediaType : MediaType
  deriving DecidableEq, Repr

/-- The parsed generation response.  `scenes` is optional because the guard
`if (!data || !data.scenes) throw` only checks presence — in particular the
list's *length* is never compared with the 5-scene schema of the prompt. -/
structure StoryData where
  title : String
  scenes : Option (List SceneData)
  quiz : List Quiz
  notes : List String
  deriving DecidableEq, Repr

/-- `generateFullStory`, after the model call and `parseJSON` (whose combined
outcome is the `data` argument; `none` covers a thrown call, a failed parse
and an absent `scenes` field reaching the catch, which returns `null`).
`uuid` is the stream of `generateUUID()` results in call order: the story id
is drawn first, then one id per scene in order
(`scenes: data.scenes.map(s => ({ ...s, id: generateUUID() }))`).
`generateUUID` concatenates a timestamp with a `Math.random()` fragment, so
nothing forces distinct draws to differ. -/
def generateFullStory (data : Option StoryData) (uuid : Nat → String)
    (now : Nat) (language : Language) : Option FullStory :=
  match data with
  | none => none
  | some d =>
    match d.scenes with
    | none => none
    | some scs =>
      some
        { id := uuid 0
          title := d.title
          scenes := scs.enum.map (fun p =>
            { id := uuid (p.1 + 1), text := p.2.text, imagePrompt := p.2.imagePrompt
              mediaType := p.2.mediaType, mediaUrl := none })
          quiz := d.quiz
          notes := d.notes
          timestamp := now
          language := language }

/-- A parsed response with a single scene, accepted by `generateFullStory`'s
guard even though the prompt's schema declares 5 scenes. -/
def oneSceneData : StoryData :=
  { title := "T", scenes := some [⟨"t", "p", .image⟩], quiz := [], notes := [] }

/-- A concrete id stream for exercising `generateFullStory`: the n-th draw is
a string of n copies of `'a'` (all draws distinct). -/
def uuidStream : Nat → String := fun n => String.mk (List.replicate n 'a')

/-! ## C4 — `saveStoryOffline` (lines 500-520) -/

/-- The successful body of `saveStoryOffline`, acting on the stored story
list: drop any existing version of this story
(`stories.filter(s => s.id !== story.id)`), put the new one at the front and
truncate, `[story, ...stories].slice(0, 5)`. -/
def saveStoryOffline (story : FullStory) (stories : List FullStory) : List FullStory :=
  (story :: stories.filter (fun s => s.id ≠ story.id)).take 5

/-- A sequence of `saveStoryOffline` calls applied in order to an initially
absent storage key (read back as `[]`). -/
def saveAll (saves : List FullStory) : List FullStory :=
  saves.foldl (fun cache story => saveStoryOffline story cache) []

/-- Specification-side description of the cache contents (spec §3, §4.6, §8):
keep, for each story identity, only its first occurrence of the given list.
Applied to the *reversed* save sequence, the first occurrence of an identity
is its most recent save, so this is exactly "most-recent-first, deduplicated
by Story identity". -/
def mostRecentFirstDedup : List FullStory → List FullStory
  | [] => []
  | s :: rest => s :: (mostRecentFirstDedup rest).filter (fun t => t.id ≠ s.id)

end StoryWeaver

namespace StoryWeaver

/-- C1: for an incoming emotion sample received while a story is being
presented, a simplification request is issued iff the sample has
`needsSimplification = true`, no simplification is already in flight, and the
current scene's text exceeds 50 characters; moreover, while a request issued
this way is still in flight, a second incoming sample issues no further
request, so two concurrent requests are never issued for the same scene. -/
theorem C1_simplification_trigger (needs needs2 : Bool) (st : SimplState)
    (hs : st.storyPresent = true) (hq : st.isQuizMode = false) :
    ((handleSimplificationIssue needs st).2 = true ↔
      (needs = true ∧ st.simplifying = false ∧ 50 < st.sceneText.length))
    ∧ ((handleSimplificationIssue needs st).2 = true →
        (handleSimplificationIssue needs2 (handleSimplificationIssue needs st).1).2 = false) := by
  unfold handleSimplificationIssue
  cases needs <;> cases hsf : st.simplifying <;>
    simp [hs, hq, hsf] <;>
    by_cases hl : 50 < st.sceneText.length <;>
    simp [hl]

/-- Witness for C1 at a concrete state: a sample with
`needsSimplification = true` on a 51-character scene with no simplification
in flight issues a request. -/
theorem C1_simplification_trigger_witness :
    (handleSimplificationIssue true
      ⟨false, true, false, "123456789012345678901234567890123456789012345678901"⟩).2 = true :=
  (C1_simplification_trigger true true
      ⟨false, true, false, "123456789012345678901234567890123456789012345678901"⟩
      rfl rfl).1.mpr ⟨rfl, rfl, by decide⟩

/-- C10: `simplifyContent` is atomic with respect to failure — if the model
call throws, or the response text is absent or empty, the original input text
is returned unchanged.  The function is total (it can neither throw nor
return null: its result type is `String`). -/
theorem C10_simplify_atomic (text : String) (lang : Language)
    (outcome : Except Unit (Option String))
    (h : outcome = .error () ∨ outcome = .ok none ∨ outcome = .ok (some "")) :
    simplifyContent text lang outcome = text := by
  rcases h with h | h | h <;> subst h <;> simp [simplifyContent]

/-- Witness for C10: a thrown simplification call leaves the text unchanged. -/
theorem C10_simplify_atomic_witness :
    simplifyContent "a scene text" Language.english (.error ()) = "a scene text" :=
  C10_simplify_atomic "a scene text" Language.english (.error ()) (Or.inl rfl)

/-- C8: the produced emotion sample has `needsSimplification = true` exactly
when the reported emotion is `"CONFUSED"` and the reported confidence exceeds
the fixed threshold `0.6`; the value is derived solely from this threshold
comparison (the classifier response carries no direct boolean flag), and on a
failed call the neutral sample has `needsSimplification = false`. -/
theorem C8_needs_simplification_iff (d : EmotionData) :
    ((analyzeLearnerEmotion (some d)).needsSimplification = true ↔
      (d.emotion = some "CONFUSED" ∧ simplificationThreshold < d.confidence.getD 0))
    ∧ (analyzeLearnerEmotion none).needsSimplification = false := by
  constructor
  · simp [analyzeLearnerEmotion]
  · rfl

/-- C6: quiz answer submission is idempotent and scored as claimed — on an
unanswered item, a correct submission adds 1 to `quizzesPassed` and 50 to
`totalPoints`, an incorrect one adds 10 points and leaves `quizzesPassed`
unchanged, and any second submission on the same item (with any option)
changes nothing. -/
theorem C6_quiz_idempotent_scoring (q : Nat) (s : QuizSession)
    (h : quizLookup s.quizState q = none) :
    ((submitQuizAnswer q true s).progress.quizzesPassed
        = s.progress.quizzesPassed + 1
      ∧ (submitQuizAnswer q true s).progress.totalPoints
        = s.progress.totalPoints + 50)
    ∧ ((submitQuizAnswer q false s).progress.quizzesPassed
        = s.progress.quizzesPassed
      ∧ (submitQuizAnswer q false s).progress.totalPoints
        = s.progress.totalPoints + 10)
    ∧ (∀ b b' : Bool,
        submitQuizAnswer q b' (submitQuizAnswer q b s) = submitQuizAnswer q b s) := by
  refine ⟨⟨?_, ?_⟩, ⟨?_, ?_⟩, ?_⟩
  · simp [submitQuizAnswer, h, updateStats]
  · simp [submitQuizAnswer, h, updateStats]
  · simp [submitQuizAnswer, h, updateStats]
  · simp [submitQuizAnswer, h, updateStats]
  · intro b b'
    have h1 : quizLookup ((q, b) :: s.quizState) q = some b := by
      simp [quizLookup]
    simp [submitQuizAnswer, h, h1]

/-- Witness for C6 at a concrete session: a first correct submission on item
0 moves the progress counters as claimed. -/
theorem C6_quiz_idempotent_scoring_witness :
    (submitQuizAnswer 0 true ⟨[], ⟨[], 0, 7, 100, [], []⟩⟩).progress.quizzesPassed = 7 + 1
    ∧ (submitQuizAnswer 0 true ⟨[], ⟨[], 0, 7, 100, [], []⟩⟩).progress.totalPoints = 100 + 50 :=
  (C6_quiz_idempotent_scoring 0 ⟨[], ⟨[], 0, 7, 100, [], []⟩⟩ rfl).1

/-- C2 counterexample: the single-flight invariant does not hold.  The guard
on issuing a fresh acquisition is `!mediaCache[scene.id]`, and a cache entry
is only written when a request *resolves* — an in-flight request leaves no
entry.  The effect re-runs whenever one of its dependencies `story`,
`currentSceneIndex`, `isQuizMode`, `isOffline` changes (e.g. a simplification
replaces `story`, or the user navigates away and back while the request is
still in flight); at that point the cache is still empty for the scene, so a
second acquisition is issued for the same scene: after two invocations, two
acquisitions for scene `"s1"` are pending simultaneously. -/
theorem C2_single_flight_counterexample :
    (mediaEffect true false false sceneS1 ⟨[], []⟩).2 = true
    ∧ (mediaEffect true false false sceneS1
        (mediaEffect true false false sceneS1 ⟨[], []⟩).1).2 = true
    ∧ (mediaEffect true false false sceneS1
        (mediaEffect true false false sceneS1 ⟨[], []⟩).1).1.pending
      = ["s1", "s1"] := by
  refine ⟨rfl, rfl, rfl⟩

/-- C2 (amended): a re-entrant media request for a scene whose identity
already has a *resolved* media cache entry is a no-op — no request is issued
and the state is unchanged.  The guard checks only resolved cache entries, so
it does not prevent a second acquisition while one is merely in flight. -/
theorem C2_resolved_entry_noop (storyPresent isQuizMode isOffline : Bool)
    (scene : StoryScene) (st : MediaEffectState) (u : String)
    (h : cacheGet st.mediaCache scene.id = some u) :
    mediaEffect storyPresent isQuizMode isOffline scene st = (st, false) := by
  unfold mediaEffect
  rw [h]
  simp

/-- Witness for the amended C2 at a concrete state with a resolved entry for
the current scene. -/
theorem C2_resolved_entry_noop_witness :
    mediaEffect true false false sceneS1 ⟨[("s1", "url0")], []⟩
      = (⟨[("s1", "url0")], []⟩, false) :=
  C2_resolved_entry_noop true false false sceneS1 ⟨[("s1", "url0")], []⟩ "url0" rfl

/-- C3: for a video-kind scene, a thrown video generation falls through to
the high-tier (Pro) image attempt; if that also throws, the low-tier flash
attempt decides the result; if every attempt fails the pipeline returns
`none` ("unavailable"), and settling the acquisition with `none` writes no
media cache entry for the scene. -/
theorem C3_video_fallback_chain (u : String)
    (flash : Except Unit (Option String)) (st : MediaEffectState) (sid : String)
    (hf : generateFlashImage flash = none) :
    generateVisuals .video (.error ()) (.ok (some u)) flash = some u
    ∧ (∀ pro, generateVisuals .video (.error ()) pro flash
        = generateVisuals .image (.error ()) pro flash)
    ∧ generateVisuals .video (.error ()) (.error ()) flash = none
    ∧ (mediaComplete sid (generateVisuals .video (.error ()) (.error ()) flash) st).mediaCache
      = st.mediaCache := by
  refine ⟨rfl, fun pro => rfl, ?_, ?_⟩
  · simp [generateVisuals, hf]
  · simp [generateVisuals, hf, mediaComplete, mediaTruthy]

/-- Witness for C3: with all three tiers throwing, the pipeline yields
"unavailable" and a settlement writes nothing to an empty cache. -/
theorem C3_video_fallback_chain_witness :
    generateVisuals .video (.error ()) (.error ()) (.error ()) = none
    ∧ (mediaComplete "s1" (generateVisuals .video (.error ()) (.error ()) (.error ()))
        ⟨[], ["s1"]⟩).mediaCache = [] :=
  ⟨(C3_video_fallback_chain "u" (.error ()) ⟨[], ["s1"]⟩ "s1" rfl).2.2.1,
   (C3_video_fallback_chain "u" (.error ()) ⟨[], ["s1"]⟩ "s1" rfl).2.2.2⟩

/-- A scene search over scenes none of which carries the target id finds
nothing and rebuilds the list unchanged. -/
theorem patchScenes_not_found (sceneId url : String) :
    ∀ scenes : List StoryScene, (∀ sc ∈ scenes, sc.id ≠ sceneId) →
      patchScenes sceneId url scenes = (scenes, false) := by
  intro scenes h
  induction scenes with
  | nil => rfl
  | cons sc rest ih =>
    rw [patchScenes, if_neg (h sc (by simp))]
    rw [ih (fun x hx => h x (by simp [hx]))]

/-- A scene search finds the first scene with the target id and updates only
its `mediaUrl`. -/
theorem patchScenes_found (sceneId url : String) :
    ∀ (spre : List StoryScene) (sc : StoryScene) (spost : List StoryScene),
      (∀ x ∈ spre, x.id ≠ sceneId) → sc.id = sceneId →
      patchScenes sceneId url (spre ++ sc :: spost)
        = (spre ++ { sc with mediaUrl := some url } :: spost, true) := by
  intro spre
  induction spre with
  | nil =>
    intro sc spost _ hsc
    simp [patchScenes, hsc]
  | cons x xs ih =>
    intro sc spost hpre hsc
    rw [List.cons_append, patchScenes, if_neg (hpre x (by simp))]
    rw [ih sc spost (fun y hy => hpre y (by simp [hy])) hsc]
    rfl

/-- A story search over stories none of which carries the target id finds
nothing and rebuilds the list unchanged. -/
theorem patchStories_not_found (storyId sceneId url : String) :
    ∀ stories : List FullStory, (∀ st ∈ stories, st.id ≠ storyId) →
      patchStories storyId sceneId url stories = (stories, false) := by
  intro stories h
  induction stories with
  | nil => rfl
  | cons st rest ih =>
    rw [patchStories, if_neg (h st (by simp))]
    rw [ih (fun x hx => h x (by simp [hx]))]

/-- A story search finds the first story with the target id and applies the
scene patch inside it, leaving every other story untouched. -/
theorem patchStories_found (storyId sceneId url : String) :
    ∀ (pre : List FullStory) (st : FullStory) (post : List FullStory),
      (∀ x ∈ pre, x.id ≠ storyId) → st.id = storyId →
      patchStories storyId sceneId url (pre ++ st :: post)
        = ({ st with scenes := (patchScenes sceneId url st.scenes).1 } :: post
            |> (pre ++ ·), (patchScenes sceneId url st.scenes).2) := by
  intro pre
  induction pre with
  | nil =>
    intro st post _ hst
    simp [patchStories, hst]
  | cons x xs ih =>
    intro st post hpre hst
    rw [List.cons_append, patchStories, if_neg (hpre x (by simp))]
    rw [ih st post (fun y hy => hpre y (by simp [hy])) hst]
    rfl

/-- C5: `updateStorySceneMedia` never throws (it is total), is a no-op when
the storage key is absent, when no stored story carries the target story id,
or when the found story has no scene with the target scene id; and when both
identities are present it updates exactly the first matching scene's
`mediaUrl` in the first matching story, leaving everything else unchanged,
and persists the result. -/
theorem C5_patch_scene_media_noop_or_update (storyId sceneId url : String) :
    updateStorySceneMedia storyId sceneId url none = (none, false)
    ∧ (∀ stories : List FullStory, (∀ st ∈ stories, st.id ≠ storyId) →
        updateStorySceneMedia storyId sceneId url (some stories)
          = (some stories, false))
    ∧ (∀ (pre post : List FullStory) (st : FullStory),
        (∀ x ∈ pre, x.id ≠ storyId) → st.id = storyId →
        (∀ sc ∈ st.scenes, sc.id ≠ sceneId) →
        updateStorySceneMedia storyId sceneId url (some (pre ++ st :: post))
          = (some (pre ++ st :: post), false))
    ∧ (∀ (pre post : List FullStory) (st : FullStory)
        (spre spost : List StoryScene) (sc : StoryScene),
        (∀ x ∈ pre, x.id ≠ storyId) → st.id = storyId →
        st.scenes = spre ++ sc :: spost →
        (∀ x ∈ spre, x.id ≠ sceneId) → sc.id = sceneId →
        updateStorySceneMedia storyId sceneId url (some (pre ++ st :: post))
          = (some (pre ++
              { st with scenes := spre ++ { sc with mediaUrl := some url } :: spost }
                :: post), true)) := by
  refine ⟨rfl, ?_, ?_, ?_⟩
  · intro stories h
    rw [updateStorySceneMedia, patchStories_not_found storyId sceneId url stories h]
  · intro pre post st hpre hst hsc
    rw [updateStorySceneMedia,
      patchStories_found storyId sceneId url pre st post hpre hst,
      patchScenes_not_found sceneId url st.scenes hsc]
  · intro pre post st spre spost sc hpre hst hscenes hspre hsc
    rw [updateStorySceneMedia,
      patchStories_found storyId sceneId url pre st post hpre hst, hscenes,
      patchScenes_found sceneId url spre sc spost hspre hsc]

/-- Witness for C5 on a one-story, one-scene cache where both identities
match: the scene's media reference is set and the result persisted. -/
theorem C5_patch_scene_media_noop_or_update_witness :
    updateStorySceneMedia "st1" "sc1" "u"
        (some [⟨"st1", "T", [⟨"sc1", "t", "p", .image, none⟩], [], [], 0, .english⟩])
      = (some [⟨"st1", "T", [⟨"sc1", "t", "p", .image, some "u"⟩], [], [], 0, .english⟩],
          true) :=
  (C5_patch_scene_media_noop_or_update "st1" "sc1" "u").2.2.2
    [] [] ⟨"st1", "T", [⟨"sc1", "t", "p", .image, none⟩], [], [], 0, .english⟩
    [] [] ⟨"sc1", "t", "p", .image, none⟩
    (by intro x hx; cases hx) rfl rfl (by intro x hx; cases hx) rfl

/-- C7: the response parser first parses the fence-stripped, trimmed text; on
failure it performs exactly one recovery pass on the first-brace-to-last-brace
slice of the original text; if both attempts fail (or a brace is missing) it
returns `null` instead of throwing; and the story-generation caller maps a
`null` parse to a `null` story result (surfaced as an error message) rather
than crashing. -/
theorem C7_parse_json_recovery {α : Type} (parse : String → Option α)
    (text : String) (v : α) (sub : String) :
    (parse (cleanFences text) = some v → parseJSON parse text = some v)
    ∧ (parse (cleanFences text) = none → braceSlice text = some sub →
        parseJSON parse text = parse sub)
    ∧ (parse (cleanFences text) = none → braceSlice text = none →
        parseJSON parse text = none)
    ∧ (∀ (parseStory : String → Option StoryData) (uuid : Nat → String)
        (now : Nat) (lang : Language),
        parseJSON parseStory text = none →
        generateFullStory (parseJSON parseStory text) uuid now lang = none) := by
  refine ⟨?_, ?_, ?_, ?_⟩
  · intro h1
    rw [parseJSON, h1]
  · intro h1 h2
    rw [parseJSON, h1, h2]
  · intro h1 h2
    rw [parseJSON, h1, h2]
  · intro parseStory uuid now lang h1
    rw [h1]
    rfl

/-- Witness for C7 on raw prose with no fences and no braces: both attempts
fail and the parser returns `null`; the caller yields a `null` story. -/
theorem C7_parse_json_recovery_witness :
    parseJSON (fun _ => (none : Option Nat)) "just prose" = none
    ∧ generateFullStory
        (parseJSON (fun _ => (none : Option StoryData)) "just prose")
        uuidStream 0 Language.english = none :=
  ⟨(C7_parse_json_recovery (fun _ => (none : Option Nat)) "just prose" 0 "x").2.2.1
      rfl rfl,
   (C7_parse_json_recovery (fun _ => (none : Option Nat)) "just prose" 0 "x").2.2.2
      (fun _ => none) uuidStream 0 Language.english
      ((C7_parse_json_recovery (fun _ => (none : Option StoryData)) "just prose"
          oneSceneData "x").2.2.1 rfl rfl)⟩

/-- C9 counterexample: a generation call whose parsed response contains a
single scene entry passes the only guard (`if (!data || !data.scenes)
throw`) and *succeeds*, returning a story with 1 scene — the declared
schema's scene count (5, or 4 on other configurations) is never validated,
so the claimed property fails at this input. -/
theorem C9_scene_count_counterexample :
    (generateFullStory (some oneSceneData) uuidStream 0 Language.english).map
        (fun st => st.scenes.length) = some 1
    ∧ (1 : Nat) ≠ 5 ∧ (1 : Nat) ≠ 4 :=
  ⟨rfl, by decide, by decide⟩

/-- C9 (amended): a successful generation call returns a story with exactly
one scene per scene entry of the parsed response (the count is taken from
the response, not validated against the declared schema), and the scene
identities are pairwise distinct provided the identity generator returns
pairwise-distinct draws — nothing in the code enforces that proviso, since
`generateUUID` concatenates a timestamp with a random fragment. -/
theorem C9_generation_shape (d : StoryData) (scs : List SceneData)
    (uuid : Nat → String) (now : Nat) (lang : Language)
    (hs : d.scenes = some scs)
    (hinj : ∀ i j : Nat, uuid i = uuid j → i = j) :
    ∃ st, generateFullStory (some d) uuid now lang = some st
      ∧ st.scenes.length = scs.length
      ∧ (st.scenes.map (fun sc => sc.id)).Nodup := by
  simp only [generateFullStory, hs]
  refine ⟨_, rfl, ?_, ?_⟩
  · simp
  · rw [List.map_map]
    have hcomp :
        ((fun sc : StoryScene => sc.id) ∘ fun p : Nat × SceneData =>
            ({ id := uuid (p.1 + 1), text := p.2.text, imagePrompt := p.2.imagePrompt
               mediaType := p.2.mediaType, mediaUrl := none } : StoryScene))
          = (fun i : Nat => uuid (i + 1)) ∘ Prod.fst := rfl
    rw [hcomp, ← List.map_map, List.enum_map_fst]
    exact List.Nodup.map
      (fun i j hij => by have := hinj (i + 1) (j + 1) hij; omega)
      (List.nodup_range _)

/-- Witness for the amended C9 on a one-scene response with an injective id
stream. -/
theorem C9_generation_shape_witness :
    ∃ st, generateFullStory (some oneSceneData) uuidStream 0 Language.english = some st
      ∧ st.scenes.length = (1 : Nat)
      ∧ (st.scenes.map (fun sc => sc.id)).Nodup :=
  C9_generation_shape oneSceneData [⟨"t", "p", .image⟩] uuidStream 0 Language.english
    rfl
    (fun i j h => by
      have h2 : List.replicate i 'a' = List.replicate j 'a' := congrArg String.data h
      simpa using congrArg List.length h2)

/-- Truncating after a filter commutes with truncating one element earlier
before it, provided the filter can drop at most one element of the list. -/
theorem take_filter_take {α : Type} (p : α → Bool) :
    ∀ (D : List α) (n : Nat), D.countP (fun a => !p a) ≤ 1 →
      ((D.take (n + 1)).filter p).take n = (D.filter p).take n := by
  intro D
  induction D with
  | nil =>
    intro n _
    rfl
  | cons d D' ih =>
    intro n h
    rw [List.take_succ_cons]
    by_cases hd : p d = true
    · simp only [List.filter_cons, hd, if_true]
      cases n with
      | zero => simp
      | succ m =>
        rw [List.take_succ_cons, List.take_succ_cons]
        congr 1
        apply ih
        rw [List.countP_cons] at h
        simp only [hd, Bool.not_true] at h
        omega
    · have hd' : p d = false := by
        rwa [Bool.not_eq_true] at hd
      rw [List.countP_cons] at h
      simp only [hd', Bool.not_false, if_true] at h
      have h0 : D'.countP (fun a => !p a) = 0 := by omega
      have hall : ∀ a ∈ D', p a = true := by
        intro a ha
        have := List.countP_eq_zero.mp h0 a ha
        simpa using this
      have hfD : D'.filter p = D' := List.filter_eq_self.mpr hall
      have hfT : (D'.take n).filter p = D'.take n :=
        List.filter_eq_self.mpr (fun a ha => hall a (List.take_subset n D' ha))
      simp [List.filter_cons, hd', hfD, hfT, List.take_take]

/-- In a list of stories with pairwise-distinct identities, at most one
element has a given identity, so the dedup filter drops at most one. -/
theorem countP_eq_id_le_one (k : String) :
    ∀ D : List FullStory, ((D.map (fun s => s.id)).Nodup) →
      D.countP (fun a => !(decide (a.id ≠ k))) ≤ 1 := by
  intro D
  induction D with
  | nil =>
    intro _
    simp [List.countP_nil]
  | cons s D' ih =>
    intro hnd
    rw [List.map_cons, List.nodup_cons] at hnd
    rw [List.countP_cons]
    by_cases hs : s.id = k
    · have h0 : D'.countP (fun a => !(decide (a.id ≠ k))) = 0 := by
        rw [List.countP_eq_zero]
        intro a ha
        have hak : a.id ≠ k := fun hak =>
          hnd.1 (hs ▸ hak ▸ List.mem_map_of_mem (fun t => t.id) ha)
        simp [hak]
      simp [h0, hs]
      intro a ha hak
      have hmem : a.id ∈ List.map (fun t => t.id) D' :=
        List.mem_map_of_mem (fun t => t.id) ha
      rw [hak, ← hs] at hmem
      exact hnd.1 hmem
    · have hfalse : (!(decide (s.id ≠ k))) = false := by simp [hs]
      simp only [hfalse, if_false, Nat.add_zero]
      exact ih hnd.2

/-- One save step on a truncated deduplicated cache agrees with truncating
after the untruncated step. -/
theorem save_take_comm (s : FullStory) (D : List FullStory)
    (hD : (D.map (fun t => t.id)).Nodup) :
    saveStoryOffline s (D.take 5)
      = (s :: D.filter (fun t => t.id ≠ s.id)).take 5 := by
  unfold saveStoryOffline
  have h5 : (5 : Nat) = 4 + 1 := rfl
  rw [h5, List.take_succ_cons, List.take_succ_cons]
  congr 1
  exact take_filter_take (fun t => decide (t.id ≠ s.id)) D 4
    (countP_eq_id_le_one s.id D hD)

/-- The deduplicated list has pairwise-distinct identities and the same set
of identities as its input. -/
theorem mostRecentFirstDedup_ids :
    ∀ l : List FullStory,
      ((mostRecentFirstDedup l).map (fun s => s.id)).Nodup
      ∧ ((mostRecentFirstDedup l).map (fun s => s.id)).toFinset
          = (l.map (fun s => s.id)).toFinset := by
  intro l
  induction l with
  | nil => exact ⟨List.nodup_nil, rfl⟩
  | cons x xs ih =>
    obtain ⟨ihN, ihF⟩ := ih
    have bridge : ∀ a : String,
        (∃ t, t ∈ mostRecentFirstDedup xs ∧ t.id = a) ↔ (∃ t, t ∈ xs ∧ t.id = a) := by
      intro a
      have := Finset.ext_iff.mp ihF a
      simpa [List.mem_toFinset, List.mem_map] using this
    constructor
    · rw [mostRecentFirstDedup, List.map_cons, List.nodup_cons]
      refine ⟨?_, ?_⟩
      · intro hmem
        rw [List.mem_map] at hmem
        obtain ⟨t, ht, hid⟩ := hmem
        rw [List.mem_filter] at ht
        have hne : t.id ≠ x.id := by simpa using ht.2
        exact hne hid
      · exact List.Nodup.sublist
          (List.Sublist.map (fun s : FullStory => s.id)
            (List.filter_sublist (mostRecentFirstDedup xs))) ihN
    · rw [mostRecentFirstDedup, List.map_cons, List.map_cons]
      ext a
      simp only [List.toFinset_cons, Finset.mem_insert, List.mem_toFinset,
        List.mem_map, List.mem_filter, decide_eq_true_eq]
      constructor
      · rintro (h | ⟨t, ⟨ht, hne⟩, rfl⟩)
        · exact Or.inl h
        · exact Or.inr ((bridge t.id).mp ⟨t, ht, rfl⟩)
      · rintro (h | ⟨t, ht, rfl⟩)
        · exact Or.inl h
        · by_cases hax : t.id = x.id
          · exact Or.inl hax
          · obtain ⟨t', ht', hid'⟩ := (bridge t.id).mpr ⟨t, ht, rfl⟩
            exact Or.inr ⟨t', ⟨ht', hid' ▸ hax⟩, hid'⟩

/-- The deduplicated list's length is the number of distinct identities of
its input. -/
theorem mostRecentFirstDedup_length (l : List FullStory) :
    (mostRecentFirstDedup l).length = ((l.map (fun s => s.id)).toFinset).card := by
  obtain ⟨hN, hF⟩ := mostRecentFirstDedup_ids l
  calc (mostRecentFirstDedup l).length
      = ((mostRecentFirstDedup l).map (fun s => s.id)).length := by
        rw [List.length_map]
    _ = ((mostRecentFirstDedup l).map (fun s => s.id)).toFinset.card :=
        (List.toFinset_card_of_nodup hN).symm
    _ = _ := by rw [hF]

/-- Closed form of iterating `saveStoryOffline` from an empty cache: the
cache is the most-recent-first identity-dedup of the saves, truncated to 5
entries. -/
theorem saveAll_characterization :
    ∀ saves : List FullStory,
      saveAll saves = (mostRecentFirstDedup saves.reverse).take 5 := by
  intro saves
  induction saves using List.reverseRecOn with
  | nil => rfl
  | append_singleton l s ih =>
    rw [saveAll, List.foldl_append, List.foldl_cons, List.foldl_nil]
    show saveStoryOffline s (saveAll l) = _
    rw [ih, List.reverse_append]
    simp only [List.reverse_cons, List.reverse_nil, List.nil_append,
      List.singleton_append]
    rw [mostRecentFirstDedup]
    exact save_take_comm s _ (mostRecentFirstDedup_ids _).1

/-- C4: after any sequence of saves starting from an empty Local Story
Cache, the cache equals the most-recent-first, identity-deduplicated save
sequence truncated to the fixed bound — hence it holds
`min(number of distinct story identities saved, 5)` entries, with
pairwise-distinct identities, ordered most-recent-first. -/
theorem C4_cache_bound_order_dedup (saves : List FullStory) :
    saveAll saves = (mostRecentFirstDedup saves.reverse).take 5
    ∧ (saveAll saves).length = min ((saves.map (fun s => s.id)).toFinset.card) 5
    ∧ ((saveAll saves).map (fun s => s.id)).Nodup := by
  refine ⟨saveAll_characterization saves, ?_, ?_⟩
  · rw [saveAll_characterization, List.length_take, mostRecentFirstDedup_length,
      List.map_reverse, List.toFinset_reverse]
    exact Nat.min_comm _ _
  · rw [saveAll_characterization, List.map_take]
    exact List.Nodup.sublist (List.take_sublist _ _) (mostRecentFirstDedup_ids _).1

end StoryWeaver
